import Mathlib

/-!
Verification of the Apex Crypto broker parser (`apex_crypto.py`) against its
natural-language specification.

The Python module is shallowly embedded: the CSV layer (`csv.reader`) is
represented by giving the parser its input as a list of rows, each row a list
of field strings; `decimal.Decimal` values are represented as a signed integer
coefficient with a decimal scale; `datetime` values by a year/month/day
record; Python exceptions by an error type returned through `Except`.
-/

/-- Python exceptions that the parser's operations can raise. -/
inductive PyError where
  /-- `KeyError`: a dict lookup with a missing key (column name, code letter). -/
  | keyError : String → PyError
  /-- `IndexError`: indexing a sequence out of range (`row[i]`, `s[0]`). -/
  | indexError : PyError
  /-- `ValueError`: `datetime.strptime` on a string not matching the format,
  or a `datetime` component out of range. -/
  | valueError : String → PyError
  /-- `decimal.InvalidOperation`: `Decimal()` on a malformed numeric string. -/
  | invalidOperation : String → PyError
  /-- `TypeError`: e.g. `datetime(None, 1, 1)`. -/
  | typeError : PyError
  /-- `AttributeError`: accessing an attribute an object does not have. -/
  | attributeError : String → PyError
deriving DecidableEq, Repr

/-- A `decimal.Decimal` as produced from the plain numeric strings this file
handles (no exponent/Infinity/NaN forms occur in its inputs): a signed integer
coefficient `num` together with `scale` fractional digits, denoting
`num / 10 ^ scale`.  `Decimal("1234.56")` is `⟨123456, 2⟩`. -/
structure PyDecimal where
  num : Int
  scale : Nat
deriving DecidableEq, Repr

/-- The exact rational value of a `PyDecimal`. -/
def PyDecimal.val (d : PyDecimal) : ℚ := (d.num : ℚ) / (10 : ℚ) ^ d.scale

/-- Decimal digits of a `Nat`, width at least `w`, zero-padded on the left. -/
def padNat (n w : Nat) : String :=
  let s := toString n
  if s.length < w then String.mk (List.replicate (w - s.length) '0') ++ s else s

/-- `str()` of a `PyDecimal` (what `'%s' % d` interpolates): the coefficient
with a decimal point placed `scale` digits from the right, as Python prints a
`Decimal` of non-positive exponent. -/
def PyDecimal.toStr (d : PyDecimal) : String :=
  let sign := if d.num < 0 then "-" else ""
  let a := d.num.natAbs
  if d.scale = 0 then sign ++ toString a
  else
    let p := 10 ^ d.scale
    sign ++ toString (a / p) ++ "." ++ padNat (a % p) d.scale

/-- Numeric value of a list of decimal digit characters. -/
def digitsVal (l : List Char) : Nat :=
  l.foldl (fun a c => 10 * a + (c.toNat - 48)) 0

/-- Digit run with an optional fractional part, the decimal numeric strings of
the form `digits [. digits]` that `Decimal()` accepts (at least one digit). -/
def parseUnsigned (l : List Char) : Option PyDecimal :=
  let intPart := l.takeWhile Char.isDigit
  match l.dropWhile Char.isDigit with
  | [] => if intPart.isEmpty then none else some ⟨(digitsVal intPart : Int), 0⟩
  | '.' :: frac =>
      if frac.all Char.isDigit ∧ ¬(intPart.isEmpty ∧ frac.isEmpty) then
        some ⟨(digitsVal (intPart ++ frac) : Int), frac.length⟩
      else none
  | _ => none

/-- Leading and trailing whitespace removed, as Python `str.strip()` (and the
`Decimal` constructor) remove it. -/
def trimChars (l : List Char) : List Char :=
  ((l.dropWhile Char.isWhitespace).reverse.dropWhile Char.isWhitespace).reverse

/-- Python `str.strip()`: the string with surrounding whitespace removed. -/
def pyStrip (s : String) : String := String.mk (trimChars s.data)

/-- `decimal.Decimal(s)` on the plain decimal strings this parser feeds it:
leading and trailing whitespace is ignored and underscores are removed (as the
`Decimal` constructor does), then an optional sign and `digits [. digits]`.
`none` models the `InvalidOperation` the constructor raises otherwise. -/
def pyDecimalOf (s : String) : Option PyDecimal :=
  match ((trimChars s.data).filter (fun c => c ≠ '_')) with
  | '+' :: rest => parseUnsigned rest
  | '-' :: rest => (parseUnsigned rest).map (fun d => ⟨-d.num, d.scale⟩)
  | l => parseUnsigned l

/-- Python `str.rstrip()`: remove trailing whitespace. -/
def rstrip (s : String) : String :=
  String.mk (s.data.reverse.dropWhile Char.isWhitespace).reverse

/-- `value.replace(',', '').replace('$', '')`: drop every comma and dollar
sign (thousands separators and currency symbols). -/
def stripCurrency (s : String) : String :=
  String.mk (s.data.filter (fun c => c ≠ ',' ∧ c ≠ '$'))

/-- A `datetime` at day resolution (the times in this module are all
midnight): proleptic-Gregorian year, month and day. -/
structure PyDate where
  year : Int
  month : Nat
  day : Nat
deriving DecidableEq, Repr

/-- Gregorian leap-year test. -/
def isLeap (y : Nat) : Bool := y % 4 = 0 && (y % 100 != 0 || y % 400 = 0)

/-- Days in a month of the Gregorian calendar. -/
def daysInMonth (y m : Nat) : Nat :=
  if m = 2 then (if isLeap y then 29 else 28)
  else if m = 1 ∨ m = 3 ∨ m = 5 ∨ m = 7 ∨ m = 8 ∨ m = 10 ∨ m = 12 then 31
  else 30

/-- Split a character list on `-` (as `'%Y-%m-%d'` parsing separates the
date's three groups). -/
def splitDash : List Char → List (List Char)
  | [] => [[]]
  | c :: cs =>
      if c = '-' then [] :: splitDash cs
      else
        match splitDash cs with
        | [] => [[c]]
        | p :: ps => (c :: p) :: ps

/-- `datetime.strptime(s, '%Y-%m-%d')`: exactly three dash-separated digit
groups, the year exactly four digits, month and day one or two digits, and the
whole date a valid calendar date of year at least 1 (as `datetime` requires).
`none` models the `ValueError` raised otherwise. -/
def parseYmd (s : String) : Option PyDate :=
  match splitDash s.data with
  | [ys, ms, ds] =>
      if ys.length = 4 ∧ ys.all Char.isDigit
          ∧ 1 ≤ ms.length ∧ ms.length ≤ 2 ∧ ms.all Char.isDigit
          ∧ 1 ≤ ds.length ∧ ds.length ≤ 2 ∧ ds.all Char.isDigit then
        let y := digitsVal ys
        let m := digitsVal ms
        let d := digitsVal ds
        if 1 ≤ y ∧ 1 ≤ m ∧ m ≤ 12 ∧ 1 ≤ d ∧ d ≤ daysInMonth y m then
          some ⟨(y : Int), m, d⟩
        else none
      else none
  | _ => none

/-- Left-pad a number to two digits, as `strftime` does for `%m`/`%d`. -/
def pad2 (n : Nat) : String := if n < 10 then "0" ++ toString n else toString n

/-- Modelled from the spec: the shared date-formatting helper `utils.txfDate`
(its code is outside this repository's staged sources); §4.3 and §3 call it
the shared date-formatting convention for a record's display strings, rendered
here as `MM/DD/YYYY`. -/
def txfDate (d : PyDate) : String :=
  pad2 d.month ++ "/" ++ pad2 d.day ++ "/" ++ toString d.year

/-- Modelled from the spec: the shared `utils.Transaction` record (spec §3,
an external contract whose code is outside the staged sources).  Every field
starts out absent/empty and the parser assigns the ones it computes; the
`adjustment` field is the optional wash-sale disallowed-loss amount, absent by
default. -/
structure Transaction where
  adjustment : Option PyDecimal := none
  desc : String := ""
  costBasis : Option PyDecimal := none
  buyDate : Option PyDate := none
  buyDateStr : String := ""
  saleProceeds : Option PyDecimal := none
  sellDate : Option PyDate := none
  sellDateStr : String := ""
  entryCode : Option Nat := none
deriving DecidableEq, Repr

/-- The per-row dictionary mapping column names to this row's values (built by
`txn_dict[names[i]] = row[i]`), kept as the association pairs in assignment
order. -/
abbrev RawRow := List (String × String)

/-- The pairs the dict-building loop assigns: `names[i] ↦ row[i]`; `zip`
ignores row entries beyond the header length, exactly as the loop bounded by
`len(names)` does. -/
def pyDict (names row : List String) : RawRow := names.zip row

/-- Python dict lookup on the assignment list: the last assignment to a key
wins, a missing key is a `KeyError` (signalled by `none`). -/
def dictGet (d : RawRow) (k : String) : Option String :=
  d.reverse.lookup k

/-- `dict[k]` raising `KeyError` when the column is absent. -/
def rowGet (d : RawRow) (k : String) : Except PyError String :=
  match dictGet d k with
  | some v => Except.ok v
  | none => Except.error (PyError.keyError k)

/-- The dict-building loop `for i in range(0, len(names)): txn_dict[names[i]]
= row[i]`: a row shorter than the header hits `row[i]` out of range
(`IndexError`); extra row entries beyond the header are never read. -/
def buildRow (names row : List String) : Except PyError RawRow :=
  if row.length < names.length then Except.error PyError.indexError
  else Except.ok (pyDict names row)

/-- `washSaleDisallowedAmount` (source lines 42–48): rstrip the
`1099_DISALLOWED_LOSS` value; the literal `$0.00` means no adjustment
(`None`), anything else is parsed as a `Decimal` after dropping commas and
dollar signs. -/
def washSaleDisallowedAmount (d : RawRow) : Except PyError (Option PyDecimal) := do
  let raw ← rowGet d "1099_DISALLOWED_LOSS"
  let value := rstrip raw
  if value = "$0.00" then
    return none
  else
    match pyDecimalOf (stripCurrency value) with
    | some q => return (some q)
    | none => Except.error (PyError.invalidOperation value)

/-- `buyDate` (source lines 50–54): `strptime(dict['OPEN_DATE'], '%Y-%m-%d')`. -/
def buyDate (d : RawRow) : Except PyError PyDate := do
  let raw ← rowGet d "OPEN_DATE"
  match parseYmd raw with
  | some dt => return dt
  | none => Except.error (PyError.valueError raw)

/-- `sellDate` (source lines 56–60): `strptime(dict['CLOSE_DATE'], '%Y-%m-%d')`. -/
def sellDate (d : RawRow) : Except PyError PyDate := do
  let raw ← rowGet d "CLOSE_DATE"
  match parseYmd raw with
  | some dt => return dt
  | none => Except.error (PyError.valueError raw)

/-- A Python `timedelta`, as produced by subtracting two of this module's
midnight `datetime`s: a signed number of days.  It has attributes `days`,
`seconds` and `microseconds` — and no `years` attribute. -/
structure PyTimedelta where
  days : Int
deriving DecidableEq, Repr

/-- Days from civil epoch 1970-01-01 (standard Gregorian day-count formula,
valid for the years ≥ 1 that `strptime` produces). -/
def daysFromCivil (d : PyDate) : Int :=
  let y : Int := if d.month ≤ 2 then d.year - 1 else d.year
  let era : Int := y / 400
  let yoe : Int := y - era * 400
  let mp : Int := ((d.month : Int) + 9) % 12
  let doy : Int := (153 * mp + 2) / 5 + (d.day : Int) - 1
  let doe : Int := yoe * 365 + yoe / 4 - yoe / 100 + doy
  era * 146097 + doe - 719468

/-- `datetime` subtraction, yielding a `timedelta`. -/
def dateSub (a b : PyDate) : PyTimedelta := ⟨daysFromCivil a - daysFromCivil b⟩

/-- Reading `timedelta.years`: `timedelta` has no such attribute, so the
access raises `AttributeError` for every value. -/
def timedeltaYears (_t : PyTimedelta) : Except PyError Int :=
  Except.error (PyError.attributeError "years")

/-- `isShortTerm` (source lines 62–65): `timedelta = sellDate - buyDate;
return timedelta.years <= 1`.  After both dates parse, the `.years` access
raises `AttributeError` unconditionally. -/
def isShortTerm (d : RawRow) : Except PyError Bool := do
  let s ← sellDate d
  let b ← buyDate d
  let td := dateSub s b
  let years ← timedeltaYears td
  return decide (years ≤ 1)

/-- `symbol` (source lines 67–69): the `SYMBOL` column verbatim. -/
def symbol (d : RawRow) : Except PyError String := rowGet d "SYMBOL"

/-- `numShares` (source lines 71–73): `Decimal(dict['QUANTITY'])`, with no
comma/dollar stripping. -/
def numShares (d : RawRow) : Except PyError PyDecimal := do
  let raw ← rowGet d "QUANTITY"
  match pyDecimalOf raw with
  | some q => return q
  | none => Except.error (PyError.invalidOperation raw)

/-- `costBasis` (source lines 75–82): `Decimal` of the `1099_COST` column
after dropping commas and dollar signs. -/
def costBasis (d : RawRow) : Except PyError PyDecimal := do
  let raw ← rowGet d "1099_COST"
  match pyDecimalOf (stripCurrency raw) with
  | some q => return q
  | none => Except.error (PyError.invalidOperation raw)

/-- `saleProceeds` (source lines 84–91): `Decimal` of the `1099_PROCEEDS`
column after dropping commas and dollar signs. -/
def saleProceeds (d : RawRow) : Except PyError PyDecimal := do
  let raw ← rowGet d "1099_PROCEEDS"
  match pyDecimalOf (stripCurrency raw) with
  | some q => return q
  | none => Except.error (PyError.invalidOperation raw)

/-- The `==` hidden in `if curr_txn.buyDate == 'Various':` (source lines 134,
143): it compares a `datetime` object against the string `'Various'`, which in
Python is never equal, so the condition is `False` for every date. -/
def datetimeEqStr (_d : PyDate) (_s : String) : Bool := false

/-- Python truthiness of the optional adjustment, as `if not adjustment:`
tests it: `None` and a zero `Decimal` are falsy. -/
def pyFalsy (a : Option PyDecimal) : Bool :=
  match a with
  | none => true
  | some d => d.num == 0

/-- `code_map` (source line 152) as a lookup on the uppercased first
character: `{"A": 321, "B": 711, "C": 712, "D": 323, "E": 713, "F": 714}`. -/
def code_map (c : Char) : Option Nat :=
  if c = 'A' then some 321 else if c = 'B' then some 711
  else if c = 'C' then some 712 else if c = 'D' then some 323
  else if c = 'E' then some 713 else if c = 'F' then some 714
  else none

/-- `code_map[txn_dict['8949_BOX'][0].upper()]` (source line 153): `[0]` on an
empty value raises `IndexError`; a first character outside the map raises
`KeyError`. -/
def entryCodeOf (box : String) : Except PyError Nat :=
  match box.data with
  | [] => Except.error PyError.indexError
  | c :: _ =>
      match code_map c.toUpper with
      | some v => Except.ok v
      | none => Except.error (PyError.keyError (String.mk [c.toUpper]))

/-- The per-row record assembly of `parseFileToTxnList` (source lines
117–153), everything up to but not including the tax-year filter, in source
order: build the dict; compute the wash-sale adjustment and assign it only
under `if not adjustment:`; synthesize the description; cost basis; buy date
(with the dead `== 'Various'` comparison); sale proceeds; sell date
(likewise); entry code from the 8949 box. -/
def buildTxn (names : List String) (buy_date sell_date : PyDate)
    (row : List String) : Except PyError Transaction := do
  let d ← buildRow names row
  let adjustment ← washSaleDisallowedAmount d
  let adjField : Option PyDecimal :=
    if pyFalsy adjustment then adjustment else none
  let ns ← numShares d
  let sym ← symbol d
  let descStr := ns.toStr ++ " " ++ sym
  let cb ← costBasis d
  let bd ← buyDate d
  let buyPair : PyDate × String :=
    if datetimeEqStr bd "Various" then (buy_date, "Various")
    else (bd, txfDate bd)
  let sp ← saleProceeds d
  let sd ← sellDate d
  let sellPair : PyDate × String :=
    if datetimeEqStr sd "Various" then (sell_date, "Various")
    else (sd, txfDate sd)
  let box ← rowGet d "8949_BOX"
  let code ← entryCodeOf box
  return { adjustment := adjField,
           desc := descStr,
           costBasis := some cb,
           buyDate := some buyPair.1,
           buyDateStr := buyPair.2,
           saleProceeds := some sp,
           sellDate := some sellPair.1,
           sellDateStr := sellPair.2,
           entryCode := some code }

/-- `curr_txn.sellDate.year` for the filter: the sell date was assigned while
assembling the record; were it still `None`, the attribute access would raise
`AttributeError`. -/
def txnSellYearE (t : Transaction) : Except PyError Int :=
  match t.sellDate with
  | some d => Except.ok d.year
  | none => Except.error (PyError.attributeError "year")

/-- The sell-date year a record carries, when its sell date is set. -/
def txnSellYear (t : Transaction) : Option Int :=
  t.sellDate.map (fun d => d.year)

/-- The exact text `utils.Warning` receives for a skipped out-of-year row
(source lines 156–157): `ignoring txn: "<desc>" (line <n>) as the sale is not
from <year>` with a trailing newline. -/
def warnFmt (desc : String) (lineNum : Nat) (taxYear : Int) : String :=
  "ignoring txn: \"" ++ desc ++ "\" (line " ++ toString lineNum ++
    ") as the sale is not from " ++ toString taxYear ++ "\n"

/-- What one data row contributes: a record appended to the list, or a warning
for a skipped out-of-year row. -/
inductive RowResult where
  | kept : Transaction → RowResult
  | skipped : String → RowResult
deriving DecidableEq, Repr

/-- One data row of the loop body (source lines 117–160): assemble the record,
then the tax-year filter `if tax_year and curr_txn.sellDate.year != tax_year:`
— with Python's short-circuit truthiness, a falsy `tax_year` (absent or zero)
never reads the year. -/
def processRow (names : List String) (buy_date sell_date : PyDate)
    (tax_year : Option Int) (line_num : Nat) (row : List String) :
    Except PyError RowResult := do
  let t ← buildTxn names buy_date sell_date row
  match tax_year with
  | none => return RowResult.kept t
  | some y =>
      if y = 0 then return RowResult.kept t
      else do
        let yr ← txnSellYearE t
        if yr ≠ y then return RowResult.skipped (warnFmt t.desc line_num y)
        else return RowResult.kept t

/-- The loop over the data rows (source lines 111–160), carrying the physical
line number of the next row (`line_num`, counting the header as line 1);
retained records and emitted warnings are accumulated in file order. -/
def parseRows (names : List String) (buy_date sell_date : PyDate)
    (tax_year : Option Int) : Nat → List (List String) →
    Except PyError (List Transaction × List String)
  | _, [] => Except.ok ([], [])
  | n, row :: rest => do
      match ← processRow names buy_date sell_date tax_year n row with
      | RowResult.kept t =>
          let (ts, ws) ← parseRows names buy_date sell_date tax_year (n + 1) rest
          return (t :: ts, ws)
      | RowResult.skipped w =>
          let (ts, ws) ← parseRows names buy_date sell_date tax_year (n + 1) rest
          return (ts, w :: ws)

/-- `datetime(year, month, day)` with the `tax_year` argument: `None` raises
`TypeError`, a year outside `datetime`'s 1..9999 range raises `ValueError`. -/
def mkDatetime (y : Option Int) (m d : Nat) : Except PyError PyDate :=
  match y with
  | none => Except.error PyError.typeError
  | some yy =>
      if 1 ≤ yy ∧ yy ≤ 9999 then Except.ok ⟨yy, m, d⟩
      else Except.error (PyError.valueError "year is out of range")

/-- `parseFileToTxnList` (source lines 99–162).  The file is given as
`csv.reader` yields it: a list of rows, each a list of field strings; the
first row binds the column names.  The sentinel dates `YEAR_BEGIN` /
`YEAR_END` are built from `tax_year` before any row is read.  Returned along
with the transaction list is the warning channel — modelled from the spec
(§6): `utils.Warning` (outside the staged sources) receives one line per
skipped out-of-year row, collected here as an ordered list. -/
def parseFileToTxnList (file : List (List String)) (tax_year : Option Int) :
    Except PyError (List Transaction × List String) := do
  let YEAR_BEGIN ← mkDatetime tax_year 1 1
  let YEAR_END ← mkDatetime tax_year 12 31
  match file with
  | [] => return ([], [])
  | names :: rows => parseRows names YEAR_BEGIN YEAR_END tax_year 2 rows

/-- `FIRST_LINE` (source line 31): the fixed header signature, newline
included. -/
def FIRST_LINE : String :=
  "ACCOUNT_ID,TAX_YEAR,SUBLOT_ID,SECNO,CUSIP,SYMBOL,SEC_DESCR,SEC_TYPE,SEC_SUBTYPE,SUBACCOUNT_TYPE,OPEN_TRAN_ID,CLOSE_TRAN_ID-SEQNO,OPEN_DATE,CLOSE_DATE,CLOSE_EVENT,DISPOSAL_METHOD,QUANTITY,LONG_SHORT_IND,NO_WS_COST,NO_WS_PROCEEDS,NO_WS_GAINLOSS,WS_COST_ADJ,WS_PROC_ADJ,WS_LOSS_ID-SEQNO,1099_ACQ_DATE,1099_DISP_DATE,1099_COST,1099_PROCEEDS,GROSS_NET_IND,TOTAL_GAINLOSS,ORDINARY_GAINLOSS,1099_DISALLOWED_LOSS,1099_MARKET_DISCOUNT,8949_GAINLOSS,8949_CODE,HOLDING_DATE,TERM,COVERED_IND,8949_BOX,1099_1256_CY_REALIZED,1099_1256_PY_UNREALIZED,1099_1256_CY_UNREALIZED,1099_1256_AGGREGATE\n"

/-- `f.readline()` on the file's text: the prefix up to and including the
first newline (the whole text when it has none). -/
def takeLine : List Char → List Char
  | [] => []
  | c :: cs => if c = '\n' then [c] else c :: takeLine cs

/-- The first line of a file's contents, newline included. -/
def readline (s : String) : String := String.mk (takeLine s.data)

/-- `isFileForBroker` (source lines 93–97), on the file's text: read the first
line and compare it with `FIRST_LINE`. -/
def isFileForBroker (contents : String) : Bool := readline contents == FIRST_LINE

/-- The 43 column names of `FIRST_LINE`, as `csv.reader` splits the header
row. -/
def headerNames : List String :=
  ["ACCOUNT_ID", "TAX_YEAR", "SUBLOT_ID", "SECNO", "CUSIP", "SYMBOL",
   "SEC_DESCR", "SEC_TYPE", "SEC_SUBTYPE", "SUBACCOUNT_TYPE", "OPEN_TRAN_ID",
   "CLOSE_TRAN_ID-SEQNO", "OPEN_DATE", "CLOSE_DATE", "CLOSE_EVENT",
   "DISPOSAL_METHOD", "QUANTITY", "LONG_SHORT_IND", "NO_WS_COST",
   "NO_WS_PROCEEDS", "NO_WS_GAINLOSS", "WS_COST_ADJ", "WS_PROC_ADJ",
   "WS_LOSS_ID-SEQNO", "1099_ACQ_DATE", "1099_DISP_DATE", "1099_COST",
   "1099_PROCEEDS", "GROSS_NET_IND", "TOTAL_GAINLOSS", "ORDINARY_GAINLOSS",
   "1099_DISALLOWED_LOSS", "1099_MARKET_DISCOUNT", "8949_GAINLOSS",
   "8949_CODE", "HOLDING_DATE", "TERM", "COVERED_IND", "8949_BOX",
   "1099_1256_CY_REALIZED", "1099_1256_PY_UNREALIZED",
   "1099_1256_CY_UNREALIZED", "1099_1256_AGGREGATE"]

/-- A data row matching `headerNames`, with the columns this parser reads
filled in and the unread ones blank. -/
def sampleRow (sym qty openD closeD cost proceeds disallowed box : String) :
    List String :=
  ["A1", "2023", "", "", "", sym, "", "", "", "", "",
   "", openD, closeD, "", "", qty, "", "",
   "", "", "", "", "", "", "", cost,
   proceeds, "", "", "", disallowed, "", "",
   "", "", "", "", box, "", "", "", ""]

/-- A data row with a nonzero wash-sale disallowed loss of `$5.00`. -/
def rowWS : List String :=
  sampleRow "BTC" "2.5" "2023-01-10" "2023-06-01" "$100.00" "$150.00" "$5.00" "C"

/-- The record the parser builds from `rowWS`: note `adjustment := none`. -/
def txWS : Transaction :=
  { adjustment := none, desc := "2.5 BTC", costBasis := some ⟨10000, 2⟩,
    buyDate := some ⟨2023, 1, 10⟩, buyDateStr := "01/10/2023",
    saleProceeds := some ⟨15000, 2⟩, sellDate := some ⟨2023, 6, 1⟩,
    sellDateStr := "06/01/2023", entryCode := some 712 }

/-- A valid data row whose sale closed in 2022. -/
def row2022 : List String :=
  sampleRow "BTC" "1.5" "2022-01-10" "2022-06-01" "$100.00" "$150.00" "$0.00" "C"

/-- The record the parser builds from `row2022`. -/
def tx2022 : Transaction :=
  { adjustment := none, desc := "1.5 BTC", costBasis := some ⟨10000, 2⟩,
    buyDate := some ⟨2022, 1, 10⟩, buyDateStr := "01/10/2022",
    saleProceeds := some ⟨15000, 2⟩, sellDate := some ⟨2022, 6, 1⟩,
    sellDateStr := "06/01/2022", entryCode := some 712 }

/-- A data row whose `OPEN_DATE` column is the literal `Various`. -/
def rowVarious : List String :=
  sampleRow "BTC" "1.0" "Various" "2023-06-01" "$10.00" "$15.00" "$0.00" "C"

/-- A 44-field data row: a valid row plus one extra trailing column, so its
column count does not match the 43-column header. -/
def rowExtra : List String :=
  sampleRow "ETH" "2.0" "2023-01-10" "2023-06-01" "$1,234.56" "$150.00" "$0.00" "A"
    ++ ["EXTRA"]

/-- The record the parser builds from `rowExtra` (the extra column ignored). -/
def txExtra : Transaction :=
  { adjustment := none, desc := "2.0 ETH", costBasis := some ⟨123456, 2⟩,
    buyDate := some ⟨2023, 1, 10⟩, buyDateStr := "01/10/2023",
    saleProceeds := some ⟨15000, 2⟩, sellDate := some ⟨2023, 6, 1⟩,
    sellDateStr := "06/01/2023", entryCode := some 321 }

/-- A data row held thirteen months: bought 2022-05-01, sold 2023-06-01. -/
def row13mo : List String :=
  sampleRow "BTC" "1.0" "2022-05-01" "2023-06-01" "$10.00" "$15.00" "$0.00" "C"

/-- Validity of a file's data rows: each row's record assembly succeeds, and
`ts` lists the records in file order. -/
def validWithTxns (names : List String) (bd sd : PyDate)
    (rows : List (List String)) (ts : List Transaction) : Prop :=
  List.Forall₂ (fun r t => buildTxn names bd sd r = Except.ok t) rows ts

/-- The records the spec says a year-filtered parse returns: those whose
sell-date year equals the requested year, in original order. -/
def expectedKept (y : Int) : List Transaction → List Transaction
  | [] => []
  | t :: ts =>
      if txnSellYear t = some y then t :: expectedKept y ts
      else expectedKept y ts

/-- The warnings the spec says a year-filtered parse emits: one per
out-of-year row, in order, citing that row's description and physical line
number (`n` is the line number of the first listed record's row). -/
def expectedWarnings (y : Int) : Nat → List Transaction → List String
  | _, [] => []
  | n, t :: ts =>
      if txnSellYear t = some y then expectedWarnings y (n + 1) ts
      else warnFmt t.desc n y :: expectedWarnings y (n + 1) ts

/-- Splitting a successful `Except` bind into its two successful stages. -/
lemma bind_ok {α β : Type} {e : Except PyError α} {f : α → Except PyError β}
    {b : β} (h : e >>= f = Except.ok b) :
    ∃ a, e = Except.ok a ∧ f a = Except.ok b := by
  cases e with
  | error err => simp [Bind.bind, Except.bind] at h
  | ok a => exact ⟨a, rfl, by simpa [Bind.bind, Except.bind] using h⟩

/-- Anatomy of a successful record assembly: the dict was built, the sell
date parsed and was stored in the record, and the entry code was looked up
from the row's `8949_BOX` value and stored. -/
lemma buildTxn_ok_elim {names : List String} {bd sd : PyDate}
    {row : List String} {t : Transaction}
    (h : buildTxn names bd sd row = Except.ok t) :
    ∃ d, buildRow names row = Except.ok d ∧
      ∃ sdte, sellDate d = Except.ok sdte ∧ t.sellDate = some sdte ∧
        ∃ box v, rowGet d "8949_BOX" = Except.ok box ∧
          entryCodeOf box = Except.ok v ∧ t.entryCode = some v := by
  unfold buildTxn at h
  obtain ⟨d, hd, h⟩ := bind_ok h
  obtain ⟨adj, hadj, h⟩ := bind_ok h
  obtain ⟨ns, hns, h⟩ := bind_ok h
  obtain ⟨sym, hsym, h⟩ := bind_ok h
  obtain ⟨cb, hcb, h⟩ := bind_ok h
  obtain ⟨bdte, hbd, h⟩ := bind_ok h
  obtain ⟨sp, hsp, h⟩ := bind_ok h
  obtain ⟨sdte, hsd, h⟩ := bind_ok h
  obtain ⟨box, hbox, h⟩ := bind_ok h
  obtain ⟨v, hv, h⟩ := bind_ok h
  simp only [pure, Except.pure, Except.ok.injEq] at h
  subst h
  exact ⟨d, hd, sdte, hsd, by simp [datetimeEqStr], box, v, hbox, hv, rfl⟩

/-- A row whose record assembly succeeds is kept when its sell-date year
matches the requested (nonzero) year and skipped with the formatted warning
otherwise. -/
lemma processRow_valid {names : List String} {bd sd : PyDate} {y : Int}
    {n : Nat} {row : List String} {t : Transaction} (hy : y ≠ 0)
    (h : buildTxn names bd sd row = Except.ok t) :
    processRow names bd sd (some y) n row =
      Except.ok (if txnSellYear t = some y then RowResult.kept t
                 else RowResult.skipped (warnFmt t.desc n y)) := by
  obtain ⟨d, -, sdte, -, hsell, -, -, -, -, -⟩ := buildTxn_ok_elim h
  unfold processRow
  rw [h]
  simp only [Bind.bind, Except.bind, if_neg hy, txnSellYearE, hsell,
    txnSellYear, Option.map_some]
  by_cases hyy : sdte.year = y
  · simp [hyy, pure, Except.pure]
  · simp [hyy, pure, Except.pure]

/-- A parse whose rows all assemble returns exactly the in-year records in
file order together with one warning per out-of-year row. -/
lemma parseRows_of_valid {names : List String} {bd sd : PyDate} {y : Int}
    (hy : y ≠ 0) :
    ∀ {rows : List (List String)} {ts : List Transaction},
      validWithTxns names bd sd rows ts → ∀ n : Nat,
      parseRows names bd sd (some y) n rows =
        Except.ok (expectedKept y ts, expectedWarnings y n ts) := by
  intro rows ts h
  induction h with
  | nil => intro n; rfl
  | @cons r t rs ts' hr htail ih =>
      intro n
      rw [parseRows, processRow_valid hy hr]
      by_cases hyy : txnSellYear t = some y
      · simp only [hyy, if_pos, Bind.bind, Except.bind, ih (n + 1)]
        simp [expectedKept, expectedWarnings, hyy, pure, Except.pure]
      · simp only [if_neg hyy, Bind.bind, Except.bind, ih (n + 1)]
        simp [expectedKept, expectedWarnings, hyy, pure, Except.pure]

/-- The warning for the out-of-year row listed `k` places after the row at
line `n` cites line `n + k`. -/
lemma mem_expectedWarnings {y : Int} :
    ∀ (ts : List Transaction) (n k : Nat) (hk : k < ts.length),
      txnSellYear (ts.get ⟨k, hk⟩) ≠ some y →
      warnFmt (ts.get ⟨k, hk⟩).desc (n + k) y ∈ expectedWarnings y n ts := by
  intro ts
  induction ts with
  | nil => intro n k hk; simp at hk
  | cons t ts ih =>
      intro n k hk hout
      cases k with
      | zero =>
          simp only [List.get] at hout ⊢
          rw [expectedWarnings, if_neg hout, Nat.add_zero]
          exact List.mem_cons_self _ _
      | succ k =>
          have hk' : k < ts.length := by simpa using hk
          have hout' : txnSellYear (ts.get ⟨k, hk'⟩) ≠ some y := by
            simpa using hout
          have hmem := ih (n + 1) k hk' hout'
          rw [expectedWarnings]
          have heq : n + (k + 1) = n + 1 + k := by omega
          by_cases hyy : txnSellYear t = some y
          · rw [if_pos hyy]
            simpa [heq] using hmem
          · rw [if_neg hyy]
            exact List.mem_cons_of_mem _ (by simpa [heq] using hmem)

/-- A row whose assembly raises aborts the whole loop with that error, no
matter how many valid rows precede or follow it. -/
lemma parseRows_abort {names : List String} {bd sd : PyDate} {y : Int}
    (hy : y ≠ 0) {e : PyError} {r : List String}
    (hr : buildTxn names bd sd r = Except.error e) :
    ∀ {pre : List (List String)} {ts : List Transaction},
      validWithTxns names bd sd pre ts →
      ∀ (post : List (List String)) (n : Nat),
      parseRows names bd sd (some y) n (pre ++ r :: post) = Except.error e := by
  intro pre ts h
  induction h with
  | nil =>
      intro post n
      have hpr : processRow names bd sd (some y) n r = Except.error e := by
        unfold processRow
        rw [hr]
        rfl
      rw [List.nil_append, parseRows, hpr]
      rfl
  | @cons r0 t rs ts' hr0 htail ih =>
      intro post n
      rw [List.cons_append, parseRows, processRow_valid hy hr0]
      by_cases hyy : txnSellYear t = some y
      · simp only [if_pos hyy, Bind.bind, Except.bind, ih post (n + 1)]
      · simp only [if_neg hyy, Bind.bind, Except.bind, ih post (n + 1)]

/-- C1: the assignment guard is inverted.  On `rowWS`, whose disallowed-loss
column holds `$5.00`, `washSaleDisallowedAmount` returns the present value
`5.00`; yet because the code assigns under `if not adjustment:`, the record it
assembles leaves `adjustment` unset, contradicting the claim that a present
value is attached. -/
theorem adjustment_inverted_on_present_value :
    washSaleDisallowedAmount (pyDict headerNames rowWS)
        = Except.ok (some ⟨500, 2⟩)
    ∧ buildTxn headerNames ⟨2023, 1, 1⟩ ⟨2023, 12, 31⟩ rowWS = Except.ok txWS
    ∧ txWS.adjustment = none :=
  ⟨rfl, rfl, rfl⟩

/-- C4: a row whose `OPEN_DATE` column is the literal `Various` never reaches
the `== 'Various'` branch: `strptime` raises `ValueError('Various')` first, so
the whole parse errors instead of substituting January 1 of the tax year.
Moreover the guarding comparison itself compares a `datetime` against a
string, which is `False` for every date, so the branch is dead. -/
theorem various_open_date_raises :
    parseFileToTxnList [headerNames, rowVarious] (some 2023)
        = Except.error (PyError.valueError "Various")
    ∧ datetimeEqStr ⟨2023, 1, 1⟩ "Various" = false :=
  ⟨rfl, rfl⟩

/-- C8: with no tax year requested, `parseFileToTxnList` does not skip the
year filter and keep every row — it raises `TypeError` from
`datetime(None, 1, 1)` before reading any row, for every input file. -/
theorem absent_tax_year_raises (file : List (List String)) :
    parseFileToTxnList file none = Except.error PyError.typeError := rfl

/-- C9: `isShortTerm` never classifies anything: whenever both dates parse,
the access to the nonexistent `timedelta.years` attribute raises
`AttributeError`, so no boolean is ever returned. -/
theorem isShortTerm_raises (d : RawRow) (s b : PyDate)
    (hs : sellDate d = Except.ok s) (hb : buyDate d = Except.ok b) :
    isShortTerm d = Except.error (PyError.attributeError "years") := by
  unfold isShortTerm
  rw [hs, hb]
  rfl

/-- Witness for C9 at a thirteen-month holding: bought 2022-05-01, sold
2023-06-01 — where the claim expects `false`, the code raises. -/
theorem isShortTerm_raises_witness :
    isShortTerm (pyDict headerNames row13mo)
        = Except.error (PyError.attributeError "years") :=
  isShortTerm_raises (pyDict headerNames row13mo) ⟨2023, 6, 1⟩ ⟨2022, 5, 1⟩
    rfl rfl

/-- A year-filtered parse of a file whose data rows all assemble: the kept
records and the warnings, closed over the sentinel-date construction. -/
lemma parseFile_of_valid {y : Int} (hy1 : 1 ≤ y) (hy9 : y ≤ 9999)
    {names : List String} {rows : List (List String)} {ts : List Transaction}
    (hv : validWithTxns names ⟨y, 1, 1⟩ ⟨y, 12, 31⟩ rows ts) :
    parseFileToTxnList (names :: rows) (some y) =
      Except.ok (expectedKept y ts, expectedWarnings y 2 ts) := by
  have hy : y ≠ 0 := by omega
  have hb : mkDatetime (some y) 1 1 = Except.ok ⟨y, 1, 1⟩ := by
    simp [mkDatetime, hy1, hy9]
  have hs : mkDatetime (some y) 12 31 = Except.ok ⟨y, 12, 31⟩ := by
    simp [mkDatetime, hy1, hy9]
  unfold parseFileToTxnList
  rw [hb, hs]
  simp only [Bind.bind, Except.bind]
  exact parseRows_of_valid hy hv 2

/-- C2: when tax year `y` (a real year, so nonzero) is requested and every
data row of the file assembles into a record (`ts` in file order), the parse
returns exactly the records whose sell-date year is `y`, in original file
order, and emits exactly one warning per out-of-year row, each of the form
`ignoring txn: "<description>" (line <n>) as the sale is not from <y>`. -/
theorem year_filter_keeps_order_and_warns (y : Int) (hy1 : 1 ≤ y)
    (hy9 : y ≤ 9999) (names : List String) (rows : List (List String))
    (ts : List Transaction)
    (hv : validWithTxns names ⟨y, 1, 1⟩ ⟨y, 12, 31⟩ rows ts) :
    parseFileToTxnList (names :: rows) (some y) =
      Except.ok (expectedKept y ts, expectedWarnings y 2 ts) :=
  parseFile_of_valid hy1 hy9 hv

/-- Witness for C2: a 2023 parse of a file holding one 2022 row keeps nothing
and warns once. -/
theorem year_filter_keeps_order_and_warns_witness :
    parseFileToTxnList [headerNames, row2022] (some 2023) =
      Except.ok (expectedKept 2023 [tx2022], expectedWarnings 2023 2 [tx2022]) :=
  year_filter_keeps_order_and_warns 2023 (by norm_num) (by norm_num)
    headerNames [row2022] [tx2022] (List.Forall₂.cons rfl List.Forall₂.nil)

/-- C10: warnings cite the row's 1-based physical line position with the
header as line 1: the data row at 0-based index `k` (the `(k+1)`-th data row)
is cited as line `k + 2`, never `k + 1`. -/
theorem warning_cites_physical_line (y : Int) (hy1 : 1 ≤ y) (hy9 : y ≤ 9999)
    (names : List String) (rows : List (List String)) (ts : List Transaction)
    (hv : validWithTxns names ⟨y, 1, 1⟩ ⟨y, 12, 31⟩ rows ts)
    (k : Nat) (hk : k < ts.length)
    (hout : txnSellYear (ts.get ⟨k, hk⟩) ≠ some y) :
    ∃ T W, parseFileToTxnList (names :: rows) (some y) = Except.ok (T, W) ∧
      warnFmt (ts.get ⟨k, hk⟩).desc (k + 2) y ∈ W := by
  refine ⟨expectedKept y ts, expectedWarnings y 2 ts,
    parseFile_of_valid hy1 hy9 hv, ?_⟩
  have := mem_expectedWarnings ts 2 k hk hout
  simpa [Nat.add_comm] using this

/-- Witness for C10: the single 2022 data row sits on physical line 2 and its
warning says so. -/
theorem warning_cites_physical_line_witness :
    ∃ T W, parseFileToTxnList [headerNames, row2022] (some 2023)
        = Except.ok (T, W) ∧ warnFmt tx2022.desc 2 2023 ∈ W :=
  warning_cites_physical_line 2023 (by norm_num) (by norm_num) headerNames
    [row2022] [tx2022] (List.Forall₂.cons rfl List.Forall₂.nil) 0
    (by norm_num) (by decide)

/-- C3: the entry code is the image of the uppercased first character of the
`8949_BOX` value under `A→321, B→711, C→712, D→323, E→713, F→714`; any other
leading character raises `KeyError` (no silent default); and every
successfully assembled record's `entryCode` is exactly that image of its own
`8949_BOX` column. -/
theorem entry_code_mapping :
    (∀ (box : String) (c : Char) (rest : List Char), box.data = c :: rest →
        entryCodeOf box =
          (if c.toUpper = 'A' then Except.ok 321
           else if c.toUpper = 'B' then Except.ok 711
           else if c.toUpper = 'C' then Except.ok 712
           else if c.toUpper = 'D' then Except.ok 323
           else if c.toUpper = 'E' then Except.ok 713
           else if c.toUpper = 'F' then Except.ok 714
           else Except.error (PyError.keyError (String.mk [c.toUpper]))))
    ∧ (∀ (names row : List String) (bd sd : PyDate) (t : Transaction),
        buildTxn names bd sd row = Except.ok t →
        ∃ box v, rowGet (pyDict names row) "8949_BOX" = Except.ok box ∧
          entryCodeOf box = Except.ok v ∧ t.entryCode = some v) := by
  constructor
  · intro box c rest h
    unfold entryCodeOf code_map
    rw [h]
    dsimp only
    split_ifs <;> rfl
  · intro names row bd sd t h
    obtain ⟨d, hd, -, -, -, box, v, hbox, hcv, hcode⟩ := buildTxn_ok_elim h
    have hdd : d = pyDict names row := by
      unfold buildRow at hd
      split at hd
      · exact absurd hd (by simp)
      · exact (Except.ok.inj hd).symm
    rw [hdd] at hbox
    exact ⟨box, v, hbox, hcv, hcode⟩

/-- Witness for C3: a lowercase `c` box maps to 712. -/
theorem entry_code_mapping_witness : entryCodeOf "c" = Except.ok 712 := by
  have h := entry_code_mapping.1 "c" 'c' [] rfl
  rw [h]
  rfl

/-- C6 (amended): a row with fewer columns than the header aborts the whole
parse with `IndexError`, and any row whose assembly raises (bad date, bad
number, unknown code letter, too few columns) aborts the whole parse with
that error and no partial list — but a row with extra columns beyond the
header is not a column-count error (the extras are silently ignored). -/
theorem malformed_row_aborts :
    (∀ (names : List String) (bd sd : PyDate) (row : List String),
        row.length < names.length →
        buildTxn names bd sd row = Except.error PyError.indexError)
    ∧ (∀ (y : Int) (names : List String) (pre : List (List String))
        (ts : List Transaction) (r : List String)
        (post : List (List String)) (e : PyError), 1 ≤ y → y ≤ 9999 →
        validWithTxns names ⟨y, 1, 1⟩ ⟨y, 12, 31⟩ pre ts →
        buildTxn names ⟨y, 1, 1⟩ ⟨y, 12, 31⟩ r = Except.error e →
        parseFileToTxnList (names :: (pre ++ r :: post)) (some y) =
          Except.error e) := by
  constructor
  · intro names bd sd row h
    unfold buildTxn buildRow
    rw [if_pos h]
    rfl
  · intro y names pre ts r post e hy1 hy9 hvalid hr
    have hy : y ≠ 0 := by omega
    have hb : mkDatetime (some y) 1 1 = Except.ok ⟨y, 1, 1⟩ := by
      simp [mkDatetime, hy1, hy9]
    have hs : mkDatetime (some y) 12 31 = Except.ok ⟨y, 12, 31⟩ := by
      simp [mkDatetime, hy1, hy9]
    unfold parseFileToTxnList
    rw [hb, hs]
    simp only [Bind.bind, Except.bind]
    exact parseRows_abort hy hr hvalid post 2

/-- Witness for C6's amended statement: a one-field row under the 43-column
header aborts assembly with `IndexError`. -/
theorem malformed_row_aborts_witness :
    buildTxn headerNames ⟨2023, 1, 1⟩ ⟨2023, 12, 31⟩ ["X"]
        = Except.error PyError.indexError :=
  malformed_row_aborts.1 headerNames ⟨2023, 1, 1⟩ ⟨2023, 12, 31⟩ ["X"]
    (by decide)

/-- Counterexample to C6 as stated: `rowExtra` has 44 columns against the
43-column header — a column-count mismatch — yet the parse does not error: it
returns the row's record, built from the first 43 fields. -/
theorem extra_column_row_accepted :
    rowExtra.length = headerNames.length + 1
    ∧ parseFileToTxnList [headerNames, rowExtra] (some 2023)
        = Except.ok ([txExtra], []) :=
  ⟨rfl, rfl⟩

/-- C5 (amended): absence of the adjustment is decided on the
trailing-whitespace-stripped (`rstrip`) value, not a fully whitespace-trimmed
one; with that correction the characterization is exact, and cost/proceeds
parse to exact decimals after dropping commas and dollar signs —
`"$1,234.56"` to exactly `1234.56`. -/
theorem wash_sale_parsing_amended (d : RawRow) (v : String)
    (hv : dictGet d "1099_DISALLOWED_LOSS" = some v) :
    (washSaleDisallowedAmount d = Except.ok none ↔ rstrip v = "$0.00")
    ∧ (∀ q : PyDecimal, rstrip v ≠ "$0.00" →
        (washSaleDisallowedAmount d = Except.ok (some q) ↔
          pyDecimalOf (stripCurrency (rstrip v)) = some q))
    ∧ (∀ (c : String) (q : PyDecimal), dictGet d "1099_COST" = some c →
        pyDecimalOf (stripCurrency c) = some q → costBasis d = Except.ok q)
    ∧ (∀ (p : String) (q : PyDecimal), dictGet d "1099_PROCEEDS" = some p →
        pyDecimalOf (stripCurrency p) = some q → saleProceeds d = Except.ok q)
    ∧ costBasis [("1099_COST", "$1,234.56")] = Except.ok ⟨123456, 2⟩
    ∧ PyDecimal.val ⟨123456, 2⟩ = 1234.56 := by
  have hrg : rowGet d "1099_DISALLOWED_LOSS" = Except.ok v := by
    unfold rowGet
    rw [hv]
  refine ⟨?_, ?_, ?_, ?_, rfl, by norm_num [PyDecimal.val]⟩
  · unfold washSaleDisallowedAmount
    rw [hrg]
    simp only [Bind.bind, Except.bind]
    by_cases h0 : rstrip v = "$0.00"
    · simp [h0, pure, Except.pure]
    · rw [if_neg h0]
      cases hq : pyDecimalOf (stripCurrency (rstrip v)) <;>
        simp [hq, h0, pure, Except.pure]
  · intro q h0
    unfold washSaleDisallowedAmount
    rw [hrg]
    simp only [Bind.bind, Except.bind]
    rw [if_neg h0]
    cases hq : pyDecimalOf (stripCurrency (rstrip v)) <;>
      simp [hq, pure, Except.pure]
  · intro c q hc hq
    have hrc : rowGet d "1099_COST" = Except.ok c := by
      unfold rowGet
      rw [hc]
    unfold costBasis
    rw [hrc]
    simp only [Bind.bind, Except.bind]
    simp [hq, pure, Except.pure]
  · intro p q hp hq
    have hrp : rowGet d "1099_PROCEEDS" = Except.ok p := by
      unfold rowGet
      rw [hp]
    unfold saleProceeds
    rw [hrp]
    simp only [Bind.bind, Except.bind]
    simp [hq, pure, Except.pure]

/-- Counterexample to C5 as stated: on the value `" $0.00"` (a leading
space), the whitespace-trimmed value is exactly `"$0.00"`, yet the result is
not absent — it is the present decimal `0.00`, because the code only strips
trailing whitespace and `Decimal` itself ignores the leading space. -/
theorem wash_sale_leading_space_cex :
    pyStrip " $0.00" = "$0.00"
    ∧ washSaleDisallowedAmount [("1099_DISALLOWED_LOSS", " $0.00")]
        = Except.ok (some ⟨0, 2⟩) :=
  ⟨rfl, rfl⟩

/-- Witness for C5's amended statement: `$1,234.56` in the disallowed-loss
column yields the adjustment `1234.56` exactly. -/
theorem wash_sale_parsing_amended_witness :
    washSaleDisallowedAmount [("1099_DISALLOWED_LOSS", "$1,234.56")]
        = Except.ok (some ⟨123456, 2⟩) :=
  ((wash_sale_parsing_amended [("1099_DISALLOWED_LOSS", "$1,234.56")]
      "$1,234.56" rfl).2.1 ⟨123456, 2⟩ (by decide)).mpr (by decide)

/-- `takeLine` runs past newline-free text and stops at the newline. -/
lemma takeLine_append_of_no_newline :
    ∀ (l r : List Char), (∀ c ∈ l, c ≠ '\n') →
      takeLine (l ++ '\n' :: r) = l ++ ['\n'] := by
  intro l
  induction l with
  | nil => intro r _; simp [takeLine]
  | cons c cs ih =>
      intro r h
      have hc : c ≠ '\n' := h c (List.mem_cons_self _ _)
      simp only [List.cons_append, takeLine, if_neg hc]
      exact congrArg _ (ih r (fun x hx => h x (List.mem_cons_of_mem _ hx)))

set_option maxRecDepth 8000 in
/-- The header signature is its newline-free body followed by `'\n'`. -/
lemma FIRST_LINE_decomp :
    FIRST_LINE.data = FIRST_LINE.data.dropLast ++ ['\n']
    ∧ ∀ c ∈ FIRST_LINE.data.dropLast, c ≠ '\n' := by
  constructor
  · decide
  · decide

/-- Reading the first line of any file that starts with the exact header. -/
lemma readline_append_header (rest : String) :
    readline (FIRST_LINE ++ rest) = FIRST_LINE := by
  unfold readline
  rw [String.data_append]
  obtain ⟨hdec, hno⟩ := FIRST_LINE_decomp
  calc String.mk (takeLine (FIRST_LINE.data ++ rest.data))
      = String.mk (takeLine ((FIRST_LINE.data.dropLast ++ ['\n']) ++ rest.data)) := by
        rw [← hdec]
    _ = String.mk (takeLine (FIRST_LINE.data.dropLast ++ ('\n' :: rest.data))) := by
        rw [List.append_assoc]
        rfl
    _ = String.mk (FIRST_LINE.data.dropLast ++ ['\n']) := by
        rw [takeLine_append_of_no_newline _ _ hno]
    _ = String.mk FIRST_LINE.data := by rw [← hdec]
    _ = FIRST_LINE := rfl

set_option maxRecDepth 8000 in
/-- C7: `isFileForBroker` is true exactly when the file's first line is
byte-for-byte the fixed newline-terminated header string; any first line that
differs in a single character therefore yields false, and any file beginning
with the exact header (whatever follows) yields true. -/
theorem isFileForBroker_exact_first_line :
    (∀ contents : String,
        isFileForBroker contents = true ↔ readline contents = FIRST_LINE)
    ∧ (∀ rest : String, isFileForBroker (FIRST_LINE ++ rest) = true)
    ∧ FIRST_LINE.data.getLast? = some '\n' := by
  have hiff : ∀ contents : String,
      isFileForBroker contents = true ↔ readline contents = FIRST_LINE := by
    intro c
    unfold isFileForBroker
    exact beq_iff_eq
  refine ⟨hiff, ?_, by decide⟩
  intro rest
  rw [hiff]
  exact readline_append_header rest

set_option maxRecDepth 8000 in
/-- Witness for C7: a file that is exactly the header line matches. -/
theorem isFileForBroker_exact_first_line_witness :
    isFileForBroker FIRST_LINE = true :=
  (isFileForBroker_exact_first_line.1 FIRST_LINE).mpr rfl
